import Mathlib

set_option maxRecDepth 100000

/-!
Verification of the authenticated-session establishment fragment of the
todo-app Playwright suite.

The model is a shallow embedding of the two sign-in fixture files and the page
objects they use.  A page behaviour records, for every UI element the suite
waits on, the time at which that element becomes visible (and stays visible),
on a common clock that starts when `signIn` is called; `none` means the
element never becomes visible.  Filling fields, clicking and navigation are
instantaneous in the model, so the login form is also submitted at clock 0;
all visibility times are therefore measured from submission.
-/

/-- The visibility schedule of one run of the application page: for each element,
the time (ms) at which it becomes visible and stays visible, or `none` when it
never does. -/
structure PageBehaviour where
  loginForm : Option Nat
  emailInput : Option Nat
  passwordInput : Option Nat
  signInButton : Option Nat
  todoListContainer : Option Nat
  todoInput : Option Nat
  todoSubmitButton : Option Nat
  invalidCredsText : Option Nat
deriving DecidableEq

/-- Page interactions issued by a fixture, recorded so that the statement
`no navigation or network interaction was attempted` is expressible as an
empty trace. -/
inductive PageAction
  | goto : String → PageAction
  | fill : String → PageAction
  | click : PageAction
deriving DecidableEq

/-- JS truthiness test used by the guard of both fixtures on the environment
values: an env var is either a string or undefined (`none`), and the negation
of it is true exactly when it is undefined or the empty string. -/
def falsyEnv : Option String → Bool
  | none => true
  | some s => s = ""

/-- Substring occurrence, used to state what an error message names. -/
def strContains (s pat : String) : Prop := List.IsInfix pat.toList s.toList

instance (s pat : String) : Decidable (strContains s pat) :=
  List.decidableInfix _ _

namespace AuthRace

/-! The race-based fixture file: `signIn` submits the credentials and races a
wait for the todo input (success marker) against a wait for the
invalid-credentials text (rejection marker), both with timeout 15000, then
classifies via the string literals `ok` / `invalid` / `timeout`. -/

def LOGIN_CREDENTIALS_ERROR : String :=
  "Login failed: app showed \"Invalid credentials\". Check TEST_USER_EMAIL and TEST_USER_PASSWORD in config/.env.dev and that the user exists at the app."

def LOGIN_TIMEOUT_ERROR : String :=
  "Login failed: todo app UI did not appear within 15s. Check credentials and app availability."

/-- A Playwright `locator.waitFor` for state visible, started at clock `c` on an
element that becomes visible at `t?`: it fulfills (`true`) at the moment the
element is seen, or rejects (`false`) at `c + timeout`. -/
def waitForVisible (c : Nat) (t? : Option Nat) (timeout : Nat) : Bool × Nat :=
  match t? with
  | none => (false, c + timeout)
  | some t =>
    if t ≤ c then (true, c)
    else if t < c + timeout then (true, t)
    else (false, c + timeout)

/-- The three string literals the race in the source resolves to. -/
inductive RaceTag
  | ok
  | invalid
  | timeout
deriving DecidableEq

/-- The waiter on the todo input (success marker), started just after submit. -/
def okWaiter (b : PageBehaviour) : Bool × Nat :=
  waitForVisible 0 b.todoInput 15000

/-- The waiter on the invalid-credentials text (rejection marker). -/
def invalidWaiter (b : PageBehaviour) : Bool × Nat :=
  waitForVisible 0 b.invalidCredsText 15000

/-- `Promise.race` of the two waiters followed by the catch mapping every race
rejection to `timeout`: the first settlement decides; a fulfillment yields its
tag, a rejection is caught.  A tie goes to the waiter listed first in the
array (the todo-input waiter). -/
def raceResult (b : PageBehaviour) : RaceTag × Nat :=
  if (okWaiter b).2 ≤ (invalidWaiter b).2 then
    (if (okWaiter b).1 then RaceTag.ok else RaceTag.timeout, (okWaiter b).2)
  else
    (if (invalidWaiter b).1 then RaceTag.invalid else RaceTag.timeout,
      (invalidWaiter b).2)

/-- The race-based `signIn`: navigate, fill both fields, click sign-in, race
the two waiters, then throw the credentials error on `invalid` and the timeout
error on `timeout`.  The result carries the settle time of the race and the
trace of page interactions performed. -/
def signIn (email password : String) (b : PageBehaviour) :
    Except String Unit × Nat × List PageAction :=
  let actions := [PageAction.goto ("/"), PageAction.fill email,
    PageAction.fill password, PageAction.click]
  match raceResult b with
  | (RaceTag.ok, t) => (Except.ok (), t, actions)
  | (RaceTag.invalid, t) => (Except.error LOGIN_CREDENTIALS_ERROR, t, actions)
  | (RaceTag.timeout, t) => (Except.error LOGIN_TIMEOUT_ERROR, t, actions)

def CONFIG_ERROR : String :=
  "Set TEST_USER_EMAIL and TEST_USER_PASSWORD in config/.env.dev (see config/.env.example)"

/-- The `authenticatedPage` fixture of the race-based file: throw the
configuration error when either env var is falsy, otherwise run `signIn`.
The second component is the trace of page interactions attempted. -/
def authenticatedPage (email password : Option String) (b : PageBehaviour) :
    Except String Unit × List PageAction :=
  if falsyEnv email || falsyEnv password then
    (Except.error CONFIG_ERROR, [])
  else
    let r := signIn (email.getD ("")) (password.getD ("")) b
    (r.1, r.2.2)

end AuthRace

namespace AuthPom

/-! The page-object fixture file: `signIn` goes through `LoginPage` and
`TodoPage`, whose waits are `BasePage.waitForElementVisible` with its default
5000 ms timeout.  Its `LOGIN_CREDENTIALS_ERROR` constant is declared but no
statement of this file ever throws it. -/

def LOGIN_CREDENTIALS_ERROR : String :=
  "Login failed: app showed \"Invalid credentials\". Check TEST_USER_EMAIL and TEST_USER_PASSWORD in config/.env.dev and that the user exists at the app."

/-- Stands for the failure raised by the external framework when
`expect(locator).toBeVisible` does not see the element within the timeout.
The exact text is owned by the external framework, not by this repository; the
model relies only on it being the generic visibility-timeout failure, distinct
from the credential error of the repository. -/
def VISIBILITY_TIMEOUT_ERROR : String :=
  "expect(locator).toBeVisible: Timeout 5000ms exceeded."

/-- `BasePage.waitForElementVisible(locator, timeout)`: started at clock `c`,
returns the clock at which the element was seen, or `none` (throws) when the
element is not visible before `c + timeout`.  Every call in this repository
uses the default timeout of 5000 ms, passed explicitly here. -/
def waitForElementVisible (c : Nat) (t? : Option Nat) (timeout : Nat) :
    Option Nat :=
  match t? with
  | none => none
  | some t =>
    if t ≤ c then some c
    else if t < c + timeout then some t
    else none

/-- `LoginPage.verifyPageLoaded`: sequential visibility waits on the login
form, the email input, the password input and the sign-in button. -/
def verifyPageLoaded (c : Nat) (b : PageBehaviour) : Option Nat :=
  (waitForElementVisible c b.loginForm 5000).bind fun c1 =>
  (waitForElementVisible c1 b.emailInput 5000).bind fun c2 =>
  (waitForElementVisible c2 b.passwordInput 5000).bind fun c3 =>
  waitForElementVisible c3 b.signInButton 5000

/-- `TodoPage.verifyTodoListLoaded`: sequential visibility waits on the todo
list container, the todo input and the todo submit button. -/
def verifyTodoListLoaded (c : Nat) (b : PageBehaviour) : Option Nat :=
  (waitForElementVisible c b.todoListContainer 5000).bind fun c1 =>
  (waitForElementVisible c1 b.todoInput 5000).bind fun c2 =>
  waitForElementVisible c2 b.todoSubmitButton 5000

/-- The page-object `signIn`: navigate (instantaneous in the model), verify
the login page loaded, fill and click (`LoginPage.login`, instantaneous), then
verify the todo list loaded.  Every failure is a visibility-timeout throw from
one of the waits; no branch raises the credentials error. -/
def signIn (b : PageBehaviour) : Except String Unit :=
  match verifyPageLoaded 0 b with
  | none => Except.error VISIBILITY_TIMEOUT_ERROR
  | some c =>
    match verifyTodoListLoaded c b with
    | none => Except.error VISIBILITY_TIMEOUT_ERROR
    | some _ => Except.ok ()

def CONFIG_ERROR : String :=
  "Set TEST_USER_EMAIL and TEST_USER_PASSWORD in config/.env.dev (see config/.env.example)"

/-- The `authenticatedPage` fixture of the page-object file: the same falsy
guard, then the inlined navigate / verify / login / verify sequence. -/
def authenticatedPage (email password : Option String) (b : PageBehaviour) :
    Except String Unit × List PageAction :=
  if falsyEnv email || falsyEnv password then
    (Except.error CONFIG_ERROR, [])
  else
    (signIn b,
      [PageAction.goto ("/"), PageAction.fill (email.getD ("")),
        PageAction.fill (password.getD ("")), PageAction.click])

end AuthPom

/-- The three-state outcome of a login attempt, from the data model of the
spec. -/
inductive SessionOutcome
  | established
  | rejected
  | indeterminate
deriving DecidableEq

/-- Outcome classification of the race-based `signIn`: normal return is
`Established`, the credentials error is `Rejected`, the caught race timeout is
`Indeterminate`. -/
def classifyRace (b : PageBehaviour) : SessionOutcome :=
  match (AuthRace.raceResult b).1 with
  | AuthRace.RaceTag.ok => SessionOutcome.established
  | AuthRace.RaceTag.invalid => SessionOutcome.rejected
  | AuthRace.RaceTag.timeout => SessionOutcome.indeterminate

/-- Outcome classification of the page-object `signIn`: normal return is
`Established`; its only failure mode is the generic visibility timeout, which
is the `Indeterminate` classification (it is the same failure that code gives
when nothing appears at all, and it is not the credentials error). -/
def classifyPom (b : PageBehaviour) : SessionOutcome :=
  match AuthPom.signIn b with
  | Except.ok _ => SessionOutcome.established
  | Except.error _ => SessionOutcome.indeterminate

/-- A behaviour on which the login succeeds at once: every element of the login
page and of the todo page is visible from time 0 and the rejection marker
never appears. -/
def bAllVisible : PageBehaviour :=
  ⟨some 0, some 0, some 0, some 0, some 0, some 0, some 0, none⟩

/-- A behaviour on which no element ever becomes visible (application down). -/
def bNothingVisible : PageBehaviour :=
  ⟨none, none, none, none, none, none, none, none⟩

/-- A behaviour on which the credentials are rejected: the login page is
visible from time 0, the rejection marker appears at time 0, and no todo
element ever appears. -/
def bRejectionFirst : PageBehaviour :=
  ⟨some 0, some 0, some 0, some 0, none, none, none, some 0⟩

theorem waitForVisible_zero_none :
    AuthRace.waitForVisible 0 none 15000 = (false, 15000) := rfl

theorem waitForVisible_zero_some (t : Nat) :
    AuthRace.waitForVisible 0 (some t) 15000 =
      if t < 15000 then (true, t) else (false, 15000) := by
  simp only [AuthRace.waitForVisible, Nat.zero_add]
  rcases Nat.eq_zero_or_pos t with h | h
  · subst h; norm_num
  · have h0 : ¬ t ≤ 0 := by omega
    simp [h0]

theorem raceResult_ok_of_success_first (b : PageBehaviour) (t : Nat)
    (htd : b.todoInput = some t) (hlt : t < 15000)
    (hfirst : ∀ u, b.invalidCredsText = some u → t ≤ u) :
    AuthRace.raceResult b = (AuthRace.RaceTag.ok, t) := by
  have hok : AuthRace.okWaiter b = (true, t) := by
    rw [AuthRace.okWaiter, htd, waitForVisible_zero_some, if_pos hlt]
  cases hic : b.invalidCredsText with
  | none =>
    have hinv : AuthRace.invalidWaiter b = (false, 15000) := by
      rw [AuthRace.invalidWaiter, hic, waitForVisible_zero_none]
    rw [AuthRace.raceResult, hok, hinv]
    simp only
    rw [if_pos (by omega : t ≤ 15000)]
    simp
  | some u =>
    have hu := hfirst u hic
    have hinv : AuthRace.invalidWaiter b =
        if u < 15000 then (true, u) else (false, 15000) := by
      rw [AuthRace.invalidWaiter, hic, waitForVisible_zero_some]
    rw [AuthRace.raceResult, hok, hinv]
    by_cases hu15 : u < 15000
    · rw [if_pos hu15]
      simp only
      rw [if_pos hu]
      simp
    · rw [if_neg hu15]
      simp only
      rw [if_pos (by omega : t ≤ 15000)]
      simp

theorem raceResult_invalid_of_rejection_first (b : PageBehaviour) (t : Nat)
    (hic : b.invalidCredsText = some t) (hlt : t < 15000)
    (hfirst : ∀ u, b.todoInput = some u → t < u) :
    AuthRace.raceResult b = (AuthRace.RaceTag.invalid, t) := by
  have hinv : AuthRace.invalidWaiter b = (true, t) := by
    rw [AuthRace.invalidWaiter, hic, waitForVisible_zero_some, if_pos hlt]
  cases htd : b.todoInput with
  | none =>
    have hok : AuthRace.okWaiter b = (false, 15000) := by
      rw [AuthRace.okWaiter, htd, waitForVisible_zero_none]
    rw [AuthRace.raceResult, hok, hinv]
    simp only
    rw [if_neg (by omega : ¬ (15000 : Nat) ≤ t)]
    simp
  | some u =>
    have hu := hfirst u htd
    have hok : AuthRace.okWaiter b =
        if u < 15000 then (true, u) else (false, 15000) := by
      rw [AuthRace.okWaiter, htd, waitForVisible_zero_some]
    rw [AuthRace.raceResult, hok, hinv]
    by_cases hu15 : u < 15000
    · rw [if_pos hu15]
      simp only
      rw [if_neg (by omega : ¬ u ≤ t)]
      simp
    · rw [if_neg hu15]
      simp only
      rw [if_neg (by omega : ¬ (15000 : Nat) ≤ t)]
      simp

theorem raceResult_timeout_of_neither (b : PageBehaviour)
    (htd : ∀ u, b.todoInput = some u → 15000 ≤ u)
    (hic : ∀ u, b.invalidCredsText = some u → 15000 ≤ u) :
    AuthRace.raceResult b = (AuthRace.RaceTag.timeout, 15000) := by
  have hok : AuthRace.okWaiter b = (false, 15000) := by
    cases h : b.todoInput with
    | none => rw [AuthRace.okWaiter, h, waitForVisible_zero_none]
    | some u =>
      rw [AuthRace.okWaiter, h, waitForVisible_zero_some,
        if_neg (by have := htd u h; omega)]
  have hinv : AuthRace.invalidWaiter b = (false, 15000) := by
    cases h : b.invalidCredsText with
    | none => rw [AuthRace.invalidWaiter, h, waitForVisible_zero_none]
    | some u =>
      rw [AuthRace.invalidWaiter, h, waitForVisible_zero_some,
        if_neg (by have := hic u h; omega)]
  rw [AuthRace.raceResult, hok, hinv]
  simp

theorem raceResult_characterisation (b : PageBehaviour) :
    (AuthRace.raceResult b).2 ≤ 15000 ∧
    ((AuthRace.raceResult b).1 = AuthRace.RaceTag.ok →
      ∃ t, b.todoInput = some t ∧ t < 15000 ∧ (AuthRace.raceResult b).2 = t) ∧
    ((AuthRace.raceResult b).1 = AuthRace.RaceTag.invalid →
      ∃ t, b.invalidCredsText = some t ∧ t < 15000 ∧
        (AuthRace.raceResult b).2 = t) ∧
    ((AuthRace.raceResult b).1 = AuthRace.RaceTag.timeout →
      (AuthRace.raceResult b).2 = 15000) := by
  have hok : AuthRace.okWaiter b =
    AuthRace.waitForVisible 0 b.todoInput 15000 := rfl
  have hinv : AuthRace.invalidWaiter b =
    AuthRace.waitForVisible 0 b.invalidCredsText 15000 := rfl
  cases htd : b.todoInput with
  | none =>
    cases hic : b.invalidCredsText with
    | none =>
      rw [AuthRace.raceResult, hok, hinv, htd, hic, waitForVisible_zero_none]
      simp
    | some u =>
      rw [AuthRace.raceResult, hok, hinv, htd, hic, waitForVisible_zero_none,
        waitForVisible_zero_some]
      by_cases hu : u < 15000
      · rw [if_pos hu]
        simp only
        rw [if_neg (by omega : ¬ (15000 : Nat) ≤ u)]
        refine ⟨by omega, by simp, fun _ => ⟨u, rfl, hu, rfl⟩, by simp⟩
      · rw [if_neg hu]
        simp
  | some t =>
    cases hic : b.invalidCredsText with
    | none =>
      rw [AuthRace.raceResult, hok, hinv, htd, hic, waitForVisible_zero_none,
        waitForVisible_zero_some]
      by_cases ht : t < 15000
      · rw [if_pos ht]
        simp only
        rw [if_pos (by omega : t ≤ 15000)]
        refine ⟨by omega, fun _ => ⟨t, rfl, ht, rfl⟩, by simp, by simp⟩
      · rw [if_neg ht]
        simp
    | some u =>
      rw [AuthRace.raceResult, hok, hinv, htd, hic, waitForVisible_zero_some,
        waitForVisible_zero_some]
      by_cases ht : t < 15000 <;> by_cases hu : u < 15000
      · rw [if_pos ht, if_pos hu]
        simp only
        by_cases htu : t ≤ u
        · rw [if_pos htu]
          refine ⟨by omega, fun _ => ⟨t, rfl, ht, rfl⟩, by simp, by simp⟩
        · rw [if_neg htu]
          refine ⟨by omega, by simp, fun _ => ⟨u, rfl, hu, rfl⟩, by simp⟩
      · rw [if_pos ht, if_neg hu]
        simp only
        rw [if_pos (by omega : t ≤ 15000)]
        refine ⟨by omega, fun _ => ⟨t, rfl, ht, rfl⟩, by simp, by simp⟩
      · rw [if_neg ht, if_pos hu]
        simp only
        rw [if_neg (by omega : ¬ (15000 : Nat) ≤ u)]
        refine ⟨by omega, by simp, fun _ => ⟨u, rfl, hu, rfl⟩, by simp⟩
      · rw [if_neg ht, if_neg hu]
        simp

theorem signIn_eq (email password : String) (b : PageBehaviour) :
    AuthRace.signIn email password b =
      ((match (AuthRace.raceResult b).1 with
        | AuthRace.RaceTag.ok => Except.ok ()
        | AuthRace.RaceTag.invalid =>
          Except.error AuthRace.LOGIN_CREDENTIALS_ERROR
        | AuthRace.RaceTag.timeout =>
          Except.error AuthRace.LOGIN_TIMEOUT_ERROR),
       (AuthRace.raceResult b).2,
       [PageAction.goto ("/"), PageAction.fill email,
         PageAction.fill password, PageAction.click]) := by
  rcases h : AuthRace.raceResult b with ⟨tag, t⟩
  cases tag <;> simp [AuthRace.signIn, h]

theorem pom_signIn_eq (b : PageBehaviour) :
    AuthPom.signIn b =
      match (AuthPom.verifyPageLoaded 0 b).bind
          (fun c => AuthPom.verifyTodoListLoaded c b) with
      | none => Except.error AuthPom.VISIBILITY_TIMEOUT_ERROR
      | some _ => Except.ok () := by
  rw [AuthPom.signIn]
  cases h1 : AuthPom.verifyPageLoaded 0 b <;> rfl

theorem pom_error_is_visibility_timeout (b : PageBehaviour) (e : String)
    (h : AuthPom.signIn b = Except.error e) :
    e = AuthPom.VISIBILITY_TIMEOUT_ERROR := by
  rw [pom_signIn_eq] at h
  cases h2 : (AuthPom.verifyPageLoaded 0 b).bind
      (fun c => AuthPom.verifyTodoListLoaded c b) with
  | none =>
    rw [h2] at h
    simp only [Except.error.injEq] at h
    exact h.symm
  | some d => rw [h2] at h; simp at h

theorem pom_ok_needs_todoInput (b : PageBehaviour)
    (h : AuthPom.signIn b = Except.ok ()) : ∃ t, b.todoInput = some t := by
  rw [pom_signIn_eq] at h
  cases h2 : (AuthPom.verifyPageLoaded 0 b).bind
      (fun c => AuthPom.verifyTodoListLoaded c b) with
  | none => rw [h2] at h; simp at h
  | some d =>
    obtain ⟨c, hc, hd⟩ := Option.bind_eq_some.mp h2
    cases htd : b.todoInput with
    | some t => exact ⟨t, rfl⟩
    | none =>
      exfalso
      rw [AuthPom.verifyTodoListLoaded] at hd
      obtain ⟨c1, hc1, hd1⟩ := Option.bind_eq_some.mp hd
      obtain ⟨c2, hc2, hd2⟩ := Option.bind_eq_some.mp hd1
      rw [htd] at hc2
      simp [AuthPom.waitForElementVisible] at hc2

theorem classifyPom_indeterminate_of_no_todoInput (b : PageBehaviour)
    (htd : b.todoInput = none) :
    classifyPom b = SessionOutcome.indeterminate := by
  rw [classifyPom]
  cases h : AuthPom.signIn b with
  | ok u =>
    cases u
    obtain ⟨t, ht⟩ := pom_ok_needs_todoInput b h
    rw [htd] at ht
    cases ht
  | error e => rfl

/-- C1: every call to the race-based `signIn` resolves, after submission, to
exactly one of the three outcomes (normal return, the credentials error, the
timeout error), at a settle time within the 15000 ms deadline; the two errors
are distinct; and a normal return occurs only when the todo input (the
post-login success marker) was observed visible before the deadline. -/
theorem login_attempt_resolves_to_one_bounded_outcome
    (email password : String) (b : PageBehaviour) :
    ((AuthRace.signIn email password b).1 = Except.ok () ∨
      (AuthRace.signIn email password b).1 =
        Except.error AuthRace.LOGIN_CREDENTIALS_ERROR ∨
      (AuthRace.signIn email password b).1 =
        Except.error AuthRace.LOGIN_TIMEOUT_ERROR) ∧
    AuthRace.LOGIN_CREDENTIALS_ERROR ≠ AuthRace.LOGIN_TIMEOUT_ERROR ∧
    (AuthRace.signIn email password b).2.1 ≤ 15000 ∧
    ((AuthRace.signIn email password b).1 = Except.ok () →
      ∃ t, b.todoInput = some t ∧ t < 15000) := by
  have hchar := raceResult_characterisation b
  have hne : AuthRace.LOGIN_CREDENTIALS_ERROR ≠ AuthRace.LOGIN_TIMEOUT_ERROR :=
    by decide
  rw [signIn_eq]
  cases htag : (AuthRace.raceResult b).1 with
  | ok =>
    obtain ⟨t, h1, h2, _⟩ := hchar.2.1 htag
    exact ⟨Or.inl rfl, hne, hchar.1, fun _ => ⟨t, h1, h2⟩⟩
  | invalid =>
    refine ⟨Or.inr (Or.inl rfl), hne, hchar.1, fun h => ?_⟩
    simp at h
  | timeout =>
    refine ⟨Or.inr (Or.inr rfl), hne, hchar.1, fun h => ?_⟩
    simp at h

/-- Witness for C1 at the behaviour where everything is visible at once. -/
theorem login_attempt_bounded_outcome_witness :
    (AuthRace.signIn ("user") ("pw") bAllVisible).1 = Except.ok () ∧
    (∃ t, bAllVisible.todoInput = some t ∧ t < 15000) :=
  ⟨rfl, (login_attempt_resolves_to_one_bounded_outcome
    ("user") ("pw") bAllVisible).2.2.2 rfl⟩

/-- C2: in the race-based `signIn`, whichever marker is observed first before
the shared 15000 ms deadline determines the outcome: success marker first
gives a normal return, rejection marker first gives the credentials error, and
if neither is observed before the deadline the timeout error is raised. -/
theorem race_first_observed_condition_determines_outcome
    (email password : String) (b : PageBehaviour) (t : Nat) :
    (b.todoInput = some t → t < 15000 →
      (∀ u, b.invalidCredsText = some u → t ≤ u) →
      (AuthRace.signIn email password b).1 = Except.ok ()) ∧
    (b.invalidCredsText = some t → t < 15000 →
      (∀ u, b.todoInput = some u → t < u) →
      (AuthRace.signIn email password b).1 =
        Except.error AuthRace.LOGIN_CREDENTIALS_ERROR) ∧
    ((∀ u, b.todoInput = some u → 15000 ≤ u) →
      (∀ u, b.invalidCredsText = some u → 15000 ≤ u) →
      (AuthRace.signIn email password b).1 =
        Except.error AuthRace.LOGIN_TIMEOUT_ERROR) := by
  refine ⟨fun h1 h2 h3 => ?_, fun h1 h2 h3 => ?_, fun h1 h2 => ?_⟩
  · rw [signIn_eq, raceResult_ok_of_success_first b t h1 h2 h3]
  · rw [signIn_eq, raceResult_invalid_of_rejection_first b t h1 h2 h3]
  · rw [signIn_eq, raceResult_timeout_of_neither b h1 h2]

/-- Witness for C2 on the three canonical behaviours. -/
theorem race_first_observed_condition_witness :
    (AuthRace.signIn ("u") ("p") bAllVisible).1 = Except.ok () ∧
    (AuthRace.signIn ("u") ("p") bRejectionFirst).1 =
      Except.error AuthRace.LOGIN_CREDENTIALS_ERROR ∧
    (AuthRace.signIn ("u") ("p") bNothingVisible).1 =
      Except.error AuthRace.LOGIN_TIMEOUT_ERROR :=
  ⟨(race_first_observed_condition_determines_outcome
      ("u") ("p") bAllVisible 0).1 rfl (by decide)
      (fun u hu => by simp [bAllVisible] at hu),
    (race_first_observed_condition_determines_outcome
      ("u") ("p") bRejectionFirst 0).2.1 rfl (by decide)
      (fun u hu => by simp [bRejectionFirst] at hu),
    (race_first_observed_condition_determines_outcome
      ("u") ("p") bNothingVisible 0).2.2
      (fun u hu => by simp [bNothingVisible] at hu)
      (fun u hu => by simp [bNothingVisible] at hu)⟩

/-- C3: in both fixture files, a falsy identifier or secret makes the
`authenticatedPage` fixture raise the configuration error with an empty
interaction trace (so before any navigation or network interaction, and
before `signIn` is ever invoked), and the message names both configuration
values. -/
theorem missing_credentials_raise_config_error_before_navigation
    (email password : Option String) (b : PageBehaviour)
    (h : falsyEnv email = true ∨ falsyEnv password = true) :
    AuthRace.authenticatedPage email password b =
      (Except.error AuthRace.CONFIG_ERROR, []) ∧
    AuthPom.authenticatedPage email password b =
      (Except.error AuthPom.CONFIG_ERROR, []) ∧
    strContains AuthRace.CONFIG_ERROR ("TEST_USER_EMAIL") ∧
    strContains AuthRace.CONFIG_ERROR ("TEST_USER_PASSWORD") := by
  have hb : (falsyEnv email || falsyEnv password) = true := by
    rcases h with h | h <;> simp [h]
  refine ⟨?_, ?_, by decide, by decide⟩
  · rw [AuthRace.authenticatedPage, if_pos hb]
  · rw [AuthPom.authenticatedPage, if_pos hb]

/-- Witness for C3 with an absent identifier. -/
theorem missing_credentials_config_error_witness :
    AuthRace.authenticatedPage none (some ("secret")) bAllVisible =
      (Except.error AuthRace.CONFIG_ERROR, []) ∧
    AuthPom.authenticatedPage none (some ("secret")) bAllVisible =
      (Except.error AuthPom.CONFIG_ERROR, []) ∧
    strContains AuthRace.CONFIG_ERROR ("TEST_USER_EMAIL") ∧
    strContains AuthRace.CONFIG_ERROR ("TEST_USER_PASSWORD") :=
  missing_credentials_raise_config_error_before_navigation
    none (some ("secret")) bAllVisible (Or.inl rfl)

/-- C4: when the race-based `signIn` raises the timeout error, that error does
not attribute the failure to bad credentials (it does not contain the
invalid-credentials diagnosis and differs from the credentials error) and it
names the success condition as not observed; the credentials error in turn
names the rejection condition as observed. -/
theorem indeterminate_error_distinguished_from_bad_credentials
    (email password : String) (b : PageBehaviour)
    (_h : (AuthRace.signIn email password b).1 =
      Except.error AuthRace.LOGIN_TIMEOUT_ERROR) :
    ¬ strContains AuthRace.LOGIN_TIMEOUT_ERROR ("Invalid credentials") ∧
    AuthRace.LOGIN_TIMEOUT_ERROR ≠ AuthRace.LOGIN_CREDENTIALS_ERROR ∧
    strContains AuthRace.LOGIN_TIMEOUT_ERROR ("todo app UI did not appear") ∧
    strContains AuthRace.LOGIN_CREDENTIALS_ERROR ("app showed") ∧
    strContains AuthRace.LOGIN_CREDENTIALS_ERROR ("Invalid credentials") :=
  ⟨by decide, by decide, by decide, by decide, by decide⟩

/-- Witness for C4 at the behaviour where nothing becomes visible. -/
theorem indeterminate_error_distinguished_witness :
    ¬ strContains AuthRace.LOGIN_TIMEOUT_ERROR ("Invalid credentials") ∧
    AuthRace.LOGIN_TIMEOUT_ERROR ≠ AuthRace.LOGIN_CREDENTIALS_ERROR ∧
    strContains AuthRace.LOGIN_TIMEOUT_ERROR ("todo app UI did not appear") ∧
    strContains AuthRace.LOGIN_CREDENTIALS_ERROR ("app showed") ∧
    strContains AuthRace.LOGIN_CREDENTIALS_ERROR ("Invalid credentials") :=
  indeterminate_error_distinguished_from_bad_credentials
    ("u") ("p") bNothingVisible rfl

/-- C5 counterexample: on a behaviour where the rejection marker appears first
and no todo element ever appears, the race-based `signIn` classifies the
attempt as `Rejected` (it throws the credentials error) while the page-object
`signIn` classifies it as `Indeterminate` (it throws the generic visibility
timeout), so the two implementations are not behaviourally equivalent. -/
theorem race_and_pom_signIn_outcomes_disagree :
    classifyRace bRejectionFirst = SessionOutcome.rejected ∧
    classifyPom bRejectionFirst = SessionOutcome.indeterminate ∧
    classifyRace bRejectionFirst ≠ classifyPom bRejectionFirst ∧
    (AuthRace.signIn ("u") ("p") bRejectionFirst).1 =
      Except.error AuthRace.LOGIN_CREDENTIALS_ERROR ∧
    AuthPom.signIn bRejectionFirst =
      Except.error AuthPom.VISIBILITY_TIMEOUT_ERROR := by
  refine ⟨rfl, rfl, by decide, rfl, rfl⟩

/-- C5 amended: the two implementations are not behaviourally equivalent.  The
page-object `signIn` can only fail with the generic visibility timeout and
never produces the `Rejected` classification; on a rejection-first behaviour
the race-based `signIn` classifies `Rejected` while the page-object one
classifies `Indeterminate`.  They agree when every element is visible at once
(both `Established`) and when neither marker ever appears (both
`Indeterminate`). -/
theorem race_and_pom_signIn_limited_agreement (b : PageBehaviour) :
    (∀ e, AuthPom.signIn b = Except.error e →
      e = AuthPom.VISIBILITY_TIMEOUT_ERROR) ∧
    classifyPom b ≠ SessionOutcome.rejected ∧
    (∀ t, b.invalidCredsText = some t → t < 15000 → b.todoInput = none →
      classifyRace b = SessionOutcome.rejected ∧
      classifyPom b = SessionOutcome.indeterminate) ∧
    ((b.loginForm = some 0 ∧ b.emailInput = some 0 ∧ b.passwordInput = some 0 ∧
        b.signInButton = some 0 ∧ b.todoListContainer = some 0 ∧
        b.todoInput = some 0 ∧ b.todoSubmitButton = some 0 ∧
        b.invalidCredsText = none) →
      classifyRace b = SessionOutcome.established ∧
      classifyPom b = SessionOutcome.established) ∧
    ((b.todoInput = none ∧ b.invalidCredsText = none) →
      classifyRace b = SessionOutcome.indeterminate ∧
      classifyPom b = SessionOutcome.indeterminate) := by
  refine ⟨pom_error_is_visibility_timeout b, ?_, ?_, ?_, ?_⟩
  · rw [classifyPom]
    cases AuthPom.signIn b <;> simp
  · intro t hic hlt htd
    have hfirst : ∀ u, b.todoInput = some u → t < u := by
      intro u hu; rw [htd] at hu; cases hu
    constructor
    · rw [classifyRace,
        raceResult_invalid_of_rejection_first b t hic hlt hfirst]
    · exact classifyPom_indeterminate_of_no_todoInput b htd
  · rintro ⟨h1, h2, h3, h4, h5, h6, h7, h8⟩
    obtain ⟨f1, f2, f3, f4, f5, f6, f7, f8⟩ := b
    simp only at h1 h2 h3 h4 h5 h6 h7 h8
    subst h1 h2 h3 h4 h5 h6 h7 h8
    exact ⟨rfl, rfl⟩
  · rintro ⟨htd, hic⟩
    constructor
    · rw [classifyRace, raceResult_timeout_of_neither b
        (fun u hu => by rw [htd] at hu; cases hu)
        (fun u hu => by rw [hic] at hu; cases hu)]
    · exact classifyPom_indeterminate_of_no_todoInput b htd

/-- Witness for the amended C5 on three concrete behaviours. -/
theorem race_and_pom_limited_agreement_witness :
    (classifyRace bRejectionFirst = SessionOutcome.rejected ∧
      classifyPom bRejectionFirst = SessionOutcome.indeterminate) ∧
    (classifyRace bAllVisible = SessionOutcome.established ∧
      classifyPom bAllVisible = SessionOutcome.established) ∧
    (classifyRace bNothingVisible = SessionOutcome.indeterminate ∧
      classifyPom bNothingVisible = SessionOutcome.indeterminate) :=
  ⟨(race_and_pom_signIn_limited_agreement bRejectionFirst).2.2.1
      0 rfl (by decide) rfl,
    (race_and_pom_signIn_limited_agreement bAllVisible).2.2.2.1
      ⟨rfl, rfl, rfl, rfl, rfl, rfl, rfl, rfl⟩,
    (race_and_pom_signIn_limited_agreement bNothingVisible).2.2.2.2
      ⟨rfl, rfl⟩⟩

/-- C6: when the rejection marker is observed first, the race-based `signIn`
raises the credentials error, whose message names the likely cause (the app
showed the invalid-credentials text) and the remediation (check the two
configured values and that the user exists). -/
theorem rejected_error_names_cause_and_remediation
    (email password : String) (b : PageBehaviour) (t : Nat)
    (hic : b.invalidCredsText = some t) (hlt : t < 15000)
    (hfirst : ∀ u, b.todoInput = some u → t < u) :
    (AuthRace.signIn email password b).1 =
      Except.error AuthRace.LOGIN_CREDENTIALS_ERROR ∧
    strContains AuthRace.LOGIN_CREDENTIALS_ERROR ("Invalid credentials") ∧
    strContains AuthRace.LOGIN_CREDENTIALS_ERROR
      ("Check TEST_USER_EMAIL and TEST_USER_PASSWORD") ∧
    strContains AuthRace.LOGIN_CREDENTIALS_ERROR ("the user exists") := by
  refine ⟨?_, by decide, by decide, by decide⟩
  rw [signIn_eq, raceResult_invalid_of_rejection_first b t hic hlt hfirst]

/-- Witness for C6 at the rejection-first behaviour. -/
theorem rejected_error_names_cause_witness :
    (AuthRace.signIn ("u") ("p") bRejectionFirst).1 =
      Except.error AuthRace.LOGIN_CREDENTIALS_ERROR ∧
    strContains AuthRace.LOGIN_CREDENTIALS_ERROR ("Invalid credentials") ∧
    strContains AuthRace.LOGIN_CREDENTIALS_ERROR
      ("Check TEST_USER_EMAIL and TEST_USER_PASSWORD") ∧
    strContains AuthRace.LOGIN_CREDENTIALS_ERROR ("the user exists") :=
  rejected_error_names_cause_and_remediation
    ("u") ("p") bRejectionFirst 0 rfl (by decide)
    (fun u hu => by simp [bRejectionFirst] at hu)

/-- C7: when the rejection marker becomes visible at a time `t` strictly
before the 15000 ms deadline and the success marker never appears, the
race-based `signIn` settles with the credentials error exactly at time `t`,
strictly before the deadline, rather than waiting out the full timeout. -/
theorem rejected_outcome_settles_before_deadline
    (email password : String) (b : PageBehaviour) (t : Nat)
    (hic : b.invalidCredsText = some t) (hlt : t < 15000)
    (htd : b.todoInput = none) :
    (AuthRace.signIn email password b).1 =
      Except.error AuthRace.LOGIN_CREDENTIALS_ERROR ∧
    (AuthRace.signIn email password b).2.1 = t ∧
    t < 15000 := by
  have hfirst : ∀ u, b.todoInput = some u → t < u := by
    intro u hu; rw [htd] at hu; cases hu
  rw [signIn_eq, raceResult_invalid_of_rejection_first b t hic hlt hfirst]
  exact ⟨rfl, rfl, hlt⟩

/-- Witness for C7 at the rejection-first behaviour. -/
theorem rejected_outcome_settles_early_witness :
    (AuthRace.signIn ("u") ("p") bRejectionFirst).1 =
      Except.error AuthRace.LOGIN_CREDENTIALS_ERROR ∧
    (AuthRace.signIn ("u") ("p") bRejectionFirst).2.1 = 0 ∧
    (0 : Nat) < 15000 :=
  rejected_outcome_settles_before_deadline
    ("u") ("p") bRejectionFirst 0 rfl (by decide) rfl

/-- C8: when neither marker ever becomes visible, the race-based `signIn`
raises the timeout error exactly at the 15000 ms deadline; moreover the
timeout classification can never occur at a settle time other than the
deadline. -/
theorem indeterminate_outcome_at_deadline_boundary
    (email password : String) (b : PageBehaviour) :
    ((b.todoInput = none ∧ b.invalidCredsText = none) →
      (AuthRace.signIn email password b).1 =
        Except.error AuthRace.LOGIN_TIMEOUT_ERROR ∧
      (AuthRace.signIn email password b).2.1 = 15000) ∧
    ((AuthRace.signIn email password b).1 =
        Except.error AuthRace.LOGIN_TIMEOUT_ERROR →
      (AuthRace.signIn email password b).2.1 = 15000) := by
  have hchar := raceResult_characterisation b
  constructor
  · rintro ⟨htd, hic⟩
    have hr : AuthRace.raceResult b = (AuthRace.RaceTag.timeout, 15000) :=
      raceResult_timeout_of_neither b
        (fun u hu => by rw [htd] at hu; cases hu)
        (fun u hu => by rw [hic] at hu; cases hu)
    rw [signIn_eq, hr]
    exact ⟨rfl, rfl⟩
  · intro h
    rw [signIn_eq] at h ⊢
    cases htag : (AuthRace.raceResult b).1 with
    | ok => rw [htag] at h; simp at h
    | invalid =>
      rw [htag] at h
      simp only [Except.error.injEq] at h
      exact absurd h (by decide)
    | timeout => exact hchar.2.2.2 htag

/-- Witness for C8 at the behaviour where nothing becomes visible. -/
theorem indeterminate_at_deadline_witness :
    (AuthRace.signIn ("u") ("p") bNothingVisible).1 =
      Except.error AuthRace.LOGIN_TIMEOUT_ERROR ∧
    (AuthRace.signIn ("u") ("p") bNothingVisible).2.1 = 15000 :=
  (indeterminate_outcome_at_deadline_boundary
    ("u") ("p") bNothingVisible).1 ⟨rfl, rfl⟩

/-- C9: the guard of the race-based `authenticatedPage` fixture treats an
empty-string identifier or secret exactly like an absent one: the
configuration error is raised and the interaction trace stays empty, so
`signIn` is never invoked. -/
theorem empty_string_credentials_treated_as_missing
    (email password : Option String) (b : PageBehaviour)
    (h : email = some ("") ∨ password = some ("")) :
    AuthRace.authenticatedPage email password b =
      (Except.error AuthRace.CONFIG_ERROR, []) := by
  have hb : (falsyEnv email || falsyEnv password) = true := by
    rcases h with h | h <;> subst h <;> simp [falsyEnv]
  rw [AuthRace.authenticatedPage, if_pos hb]

/-- Witness for C9 with an empty-string identifier. -/
theorem empty_string_credentials_witness :
    AuthRace.authenticatedPage (some ("")) (some ("pw")) bAllVisible =
      (Except.error AuthRace.CONFIG_ERROR, []) :=
  empty_string_credentials_treated_as_missing
    (some ("")) (some ("pw")) bAllVisible (Or.inl rfl)

/-- C10: classification after submit is total over the three tags; any race
settled by a waiter rejection (in particular a waiter timeout that settles the
race first) is mapped by the catch to the `timeout` tag; and the race-based
`signIn` never propagates a raw waiter exception: every error it throws is one
of the two descriptive login-failure errors. -/
theorem race_rejections_classified_as_timeout
    (email password : String) (b : PageBehaviour) :
    ((AuthRace.okWaiter b).1 = false →
      (AuthRace.okWaiter b).2 ≤ (AuthRace.invalidWaiter b).2 →
      (AuthRace.raceResult b).1 = AuthRace.RaceTag.timeout) ∧
    ((AuthRace.invalidWaiter b).1 = false →
      (AuthRace.invalidWaiter b).2 < (AuthRace.okWaiter b).2 →
      (AuthRace.raceResult b).1 = AuthRace.RaceTag.timeout) ∧
    ((AuthRace.raceResult b).1 = AuthRace.RaceTag.ok ∨
      (AuthRace.raceResult b).1 = AuthRace.RaceTag.invalid ∨
      (AuthRace.raceResult b).1 = AuthRace.RaceTag.timeout) ∧
    (∀ e, (AuthRace.signIn email password b).1 = Except.error e →
      e = AuthRace.LOGIN_CREDENTIALS_ERROR ∨
      e = AuthRace.LOGIN_TIMEOUT_ERROR) := by
  refine ⟨fun h1 h2 => ?_, fun h1 h2 => ?_, ?_, fun e he => ?_⟩
  · rw [AuthRace.raceResult, if_pos h2, h1]
    simp
  · rw [AuthRace.raceResult, if_neg (by omega), h1]
    simp
  · cases (AuthRace.raceResult b).1 <;> simp
  · rw [signIn_eq] at he
    cases htag : (AuthRace.raceResult b).1 with
    | ok => rw [htag] at he; simp at he
    | invalid =>
      rw [htag] at he
      simp only [Except.error.injEq] at he
      exact Or.inl he.symm
    | timeout =>
      rw [htag] at he
      simp only [Except.error.injEq] at he
      exact Or.inr he.symm

/-- Witness for C10 at the behaviour where nothing becomes visible. -/
theorem race_rejections_timeout_witness :
    (AuthRace.raceResult bNothingVisible).1 = AuthRace.RaceTag.timeout ∧
    (AuthRace.LOGIN_TIMEOUT_ERROR = AuthRace.LOGIN_CREDENTIALS_ERROR ∨
      AuthRace.LOGIN_TIMEOUT_ERROR = AuthRace.LOGIN_TIMEOUT_ERROR) :=
  ⟨(race_rejections_classified_as_timeout
      ("u") ("p") bNothingVisible).1 rfl (by decide),
    (race_rejections_classified_as_timeout
      ("u") ("p") bNothingVisible).2.2.2 AuthRace.LOGIN_TIMEOUT_ERROR rfl⟩
